import Mathlib

/-!
Shallow embedding of `impeller/renderer/render_pass.cc`: the render-command
recording core (pending-command builder, validation routines, `AddCommand`,
`Draw`).  Pure functions of the C++ become Lean functions; the mutable
`RenderPass` object becomes explicit state passing (each mutating member
returns the new `RenderPass`, paired with its C++ return value when it has
one).  The `VALIDATION_LOG` diagnostic side channel is modelled as an
append-only list of message strings carried in the state.

Types that live in headers outside the core source file (`Command`,
`BufferView`, `IRect`, `kMaxVertexBuffers`, ...) are modelled from the spec;
each such definition says so in its doc comment.
-/

/-- Modelled from the spec: an opaque handle standing for a compiled pipeline
object (`Pipeline<PipelineDescriptor>`); pipeline objects are external
collaborators and only null-ness of the reference matters to validity, so the
handle's payload is an uninterpreted tag. -/
structure Pipeline where
  id : Nat := 0
deriving DecidableEq, Repr

/-- Modelled from the spec: a `BufferView` (its class is not part of the core
source).  `isValid` abstracts the C++ boolean conversion used by the
validation routines: true iff the view references a non-empty buffer region.
`tag` is an uninterpreted identity distinguishing distinct views. -/
structure BufferView where
  isValid : Bool := false
  tag : Nat := 0
deriving DecidableEq, Repr

/-- The index-element-width tag of an index buffer.  Modelled from the spec:
`none`, `16-bit`, `32-bit`, `unknown`. -/
inductive IndexType where
  | kUnknown
  | k16bit
  | k32bit
  | kNone
deriving DecidableEq, Repr

/-- An integer pixel size (width, height), as `ISize`. -/
structure ISize where
  width : Int := 0
  height : Int := 0
deriving DecidableEq, Repr

/-- An integer pixel rectangle (`IRect`): origin `(x, y)` and size `(w, h)`,
origin top-left. -/
structure IRect where
  x : Int := 0
  y : Int := 0
  w : Int := 0
  h : Int := 0
deriving DecidableEq, Repr

/-- `IRect::MakeSize(size)`: the rectangle with origin `(0, 0)` and the given
size, i.e. the render target's pixel bounds `[0,0]..size`. -/
def IRect.MakeSize (s : ISize) : IRect :=
  { x := 0, y := 0, w := s.width, h := s.height }

/-- Modelled from the spec: `IRect::Contains(rect)` (the geometry header is
not part of the core source).  Section 4.3: the scissor check "fails if the
scissor rectangle is not fully contained within the render target's pixel
bounds"; `a.Contains b` holds iff `b` lies fully inside `a`. -/
def IRect.Contains (a b : IRect) : Bool :=
  decide (a.x ≤ b.x ∧ a.y ≤ b.y ∧ b.x + b.w ≤ a.x + a.w ∧ b.y + b.h ≤ a.y + a.h)

/-- Modelled from the spec: the viewport value stored on the pending command.
Its internals (a floating-point rect and depth range) never influence
validation or control flow in the core, so it is kept as an uninterpreted
tag. -/
structure Viewport where
  id : Nat := 0
deriving DecidableEq, Repr

/-- Modelled from the spec: the fixed maximum number of vertex buffers
(`kMaxVertexBuffers`, declared in the header).  The spec's scenario "bind 17
vertex buffers when maximum is 16" fixes its value at 16. -/
def kMaxVertexBuffers : Nat := 16

/-- Modelled from the spec: the `Command` value type (its header is not part
of the core source), one draw call's complete state, section 3 of the spec.
The C++ fixed-size vertex-buffer array is modelled as a total function from
index to `BufferView` together with the count of meaningful entries; field
defaults model `Command{}` value initialization (null pipeline, no buffers,
no scissor, zero element count, instance count one).  Resource bindings are
managed by the separate bind-table implementation and are not needed by any
claim, so they are omitted. -/
structure Command where
  pipeline : Option Pipeline := none
  vertex_buffers : Nat → BufferView := fun _ => {}
  vertex_buffer_count : Nat := 0
  index_buffer : BufferView := {}
  index_type : IndexType := IndexType.kNone
  element_count : Nat := 0
  instance_count : Nat := 1
  viewport : Viewport := {}
  scissor : Option IRect := none
  stencil_reference : Nat := 0
  base_vertex : Nat := 0
  label : String := ""

/-- Modelled from the spec: `Command::IsValid` (declared in the header).
Section 3's invariant: a Command is valid iff it has a non-null pipeline, a
coherent index-buffer state (`unknown` is always invalid; `none` requires no
buffer; any other tag requires a valid buffer), and a vertex-buffer count
within the fixed maximum. -/
def Command.IsValid (c : Command) : Bool :=
  c.pipeline.isSome &&
  !decide (c.index_type = IndexType.kUnknown) &&
  (decide (c.index_type = IndexType.kNone) || c.index_buffer.isValid) &&
  decide (c.vertex_buffer_count ≤ kMaxVertexBuffers)

/-- `fml::StatusCode` restricted to the two codes the core produces. -/
inductive StatusCode where
  | kOk
  | kInvalidArgument
deriving DecidableEq, Repr

/-- `fml::Status`: a code plus a message; `Status()` (the record default) is
the ok status with an empty message. -/
structure Status where
  code : StatusCode := StatusCode.kOk
  message : String := ""
deriving DecidableEq, Repr

/-- The `RenderPass` recording state: the render-target size frozen at
construction, the finalized command sequence `commands_`, the pending command
`pending_`, and the modelled `VALIDATION_LOG` side channel.  The other frozen
construction snapshots (sample count, pixel format, attachment presence, the
orthographic matrix) are only read back by trivial getters and play no role
in any claim, so they are not carried. -/
structure RenderPass where
  render_target_size : ISize
  commands : List Command := []
  pending : Command := {}
  log : List String := []

/-- `VALIDATION_LOG << msg`: append one diagnostic message to the side
channel. -/
def RenderPass.validationLog (rp : RenderPass) (msg : String) : RenderPass :=
  { rp with log := rp.log ++ [msg] }

/-- The scissor test inside `RenderPass::AddCommand` (lines 66-73): true iff
the command carries a scissor that the render-target rectangle does not
contain. -/
def RenderPass.scissorViolation (rp : RenderPass) (c : Command) : Bool :=
  match c.scissor with
  | some r => !(IRect.MakeSize rp.render_target_size).Contains r
  | none => false

/-- `RenderPass::AddCommand` (lines 60-83): reject invalid commands, reject
out-of-bounds scissors, treat zero fan-out as a successful no-op, otherwise
append to the finalized sequence. -/
def RenderPass.AddCommand (rp : RenderPass) (c : Command) : Bool × RenderPass :=
  if !c.IsValid then
    (false, rp.validationLog "Attempted to add an invalid command to the render pass.")
  else if rp.scissorViolation c then
    (false, rp.validationLog "Cannot apply a scissor that lies outside the bounds of the render target.")
  else if c.element_count == 0 || c.instance_count == 0 then
    (true, rp)
  else
    (true, { rp with commands := rp.commands ++ [c] })

/-- `RenderPass::SetPipeline` (lines 93-96); the C++ shared pointer may be
null, hence the `Option`. -/
def RenderPass.SetPipeline (rp : RenderPass) (pipeline : Option Pipeline) : RenderPass :=
  { rp with pending := { rp.pending with pipeline := pipeline } }

/-- `RenderPass::SetCommandLabel` (lines 98-102); the `IMPELLER_DEBUG` branch
is taken, matching the spec's data model in which the debug label field is
present. -/
def RenderPass.SetCommandLabel (rp : RenderPass) (label : String) : RenderPass :=
  { rp with pending := { rp.pending with label := label } }

/-- `RenderPass::SetStencilReference` (lines 104-106). -/
def RenderPass.SetStencilReference (rp : RenderPass) (value : Nat) : RenderPass :=
  { rp with pending := { rp.pending with stencil_reference := value } }

/-- `RenderPass::SetBaseVertex` (lines 108-110). -/
def RenderPass.SetBaseVertex (rp : RenderPass) (value : Nat) : RenderPass :=
  { rp with pending := { rp.pending with base_vertex := value } }

/-- `RenderPass::SetViewport` (lines 112-114). -/
def RenderPass.SetViewport (rp : RenderPass) (viewport : Viewport) : RenderPass :=
  { rp with pending := { rp.pending with viewport := viewport } }

/-- `RenderPass::SetScissor` (lines 116-118). -/
def RenderPass.SetScissor (rp : RenderPass) (scissor : IRect) : RenderPass :=
  { rp with pending := { rp.pending with scissor := some scissor } }

/-- `RenderPass::SetElementCount` (lines 120-122). -/
def RenderPass.SetElementCount (rp : RenderPass) (count : Nat) : RenderPass :=
  { rp with pending := { rp.pending with element_count := count } }

/-- `RenderPass::SetInstanceCount` (lines 124-126). -/
def RenderPass.SetInstanceCount (rp : RenderPass) (count : Nat) : RenderPass :=
  { rp with pending := { rp.pending with instance_count := count } }

/-- The loop body of `RenderPass::ValidateVertexBuffers` (lines 180-185):
walk the buffers in order, failing and logging once at the first invalid
one. -/
def RenderPass.validateVertexBuffersLoop (rp : RenderPass) : List BufferView → Bool × RenderPass
  | [] => (true, rp)
  | b :: rest =>
    if !b.isValid then
      (false, rp.validationLog "Attempted to bind an invalid vertex buffer.")
    else rp.validateVertexBuffersLoop rest

/-- `RenderPass::ValidateVertexBuffers` (lines 171-188).  The C++
array-plus-count pair is modelled as a list together with the count of
entries actually read (callers always pass the list's length). -/
def RenderPass.ValidateVertexBuffers (rp : RenderPass) (vertex_buffers : List BufferView)
    (vertex_buffer_count : Nat) : Bool × RenderPass :=
  if kMaxVertexBuffers < vertex_buffer_count then
    (false, rp.validationLog
      ("Attempted to bind " ++ toString vertex_buffer_count ++
       " vertex buffers, but the maximum is " ++ toString kMaxVertexBuffers ++ "."))
  else
    rp.validateVertexBuffersLoop (vertex_buffers.take vertex_buffer_count)

/-- `RenderPass::ValidateIndexBuffer` (lines 190-203). -/
def RenderPass.ValidateIndexBuffer (rp : RenderPass) (index_buffer : BufferView)
    (index_type : IndexType) : Bool × RenderPass :=
  if decide (index_type = IndexType.kUnknown) then
    (false, rp.validationLog "Cannot bind an index buffer with an unknown index type.")
  else if !decide (index_type = IndexType.kNone) && !index_buffer.isValid then
    (false, rp.validationLog "Attempted to bind an invalid index buffer.")
  else
    (true, rp)

/-- `RenderPass::SetVertexBuffer(BufferView[], size_t)` (lines 148-159): the
array-based core all the other overloads funnel into.  On validation success
it writes the first `count` views into the pending command's vertex-buffer
array (entries beyond `count` keep their previous contents, as in the C++
fixed array) and records the count. -/
def RenderPass.SetVertexBuffer (rp : RenderPass) (vertex_buffers : List BufferView)
    (vertex_buffer_count : Nat) : Bool × RenderPass :=
  let v := rp.ValidateVertexBuffers vertex_buffers vertex_buffer_count
  if !v.1 then
    (false, v.2)
  else
    (true, { v.2 with pending := { v.2.pending with
      vertex_buffer_count := vertex_buffer_count,
      vertex_buffers := fun i =>
        if i < vertex_buffer_count then vertex_buffers.getD i (v.2.pending.vertex_buffers i)
        else v.2.pending.vertex_buffers i } })

/-- `RenderPass::SetVertexBuffer(BufferView)` (lines 140-142): the
single-view overload. -/
def RenderPass.SetVertexBufferView (rp : RenderPass) (vertex_buffer : BufferView) :
    Bool × RenderPass :=
  rp.SetVertexBuffer [vertex_buffer] 1

/-- `RenderPass::SetVertexBuffer(std::vector<BufferView>)` (lines 144-146):
the list overload. -/
def RenderPass.SetVertexBufferVec (rp : RenderPass) (vertex_buffers : List BufferView) :
    Bool × RenderPass :=
  rp.SetVertexBuffer vertex_buffers vertex_buffers.length

/-- `RenderPass::SetIndexBuffer` (lines 161-169). -/
def RenderPass.SetIndexBuffer (rp : RenderPass) (index_buffer : BufferView)
    (index_type : IndexType) : Bool × RenderPass :=
  let v := rp.ValidateIndexBuffer index_buffer index_type
  if !v.1 then
    (false, v.2)
  else
    (true, { v.2 with pending := { v.2.pending with
      index_buffer := index_buffer, index_type := index_type } })

/-- Modelled from the spec: the packaged `VertexBuffer` description (its
header is not part of the core source): one vertex-buffer view, an index
buffer with its type, and the vertex count. -/
structure VertexBuffer where
  vertex_buffer : BufferView := {}
  index_buffer : BufferView := {}
  vertex_count : Nat := 0
  index_type : IndexType := IndexType.kNone
deriving DecidableEq, Repr

/-- `RenderPass::SetVertexBuffer(VertexBuffer)` (lines 128-138): the combined
vertex+index+count helper, sequencing the single-view set, the index-buffer
set, and the element-count set. -/
def RenderPass.SetVertexBufferFull (rp : RenderPass) (buffer : VertexBuffer) :
    Bool × RenderPass :=
  let s1 := rp.SetVertexBuffer [buffer.vertex_buffer] 1
  if !s1.1 then
    (false, s1.2)
  else
    let s2 := s1.2.SetIndexBuffer buffer.index_buffer buffer.index_type
    if !s2.1 then
      (false, s2.2)
    else
      (true, s2.2.SetElementCount buffer.vertex_count)

/-- `RenderPass::Draw` (lines 205-213): finalize the pending command through
`AddCommand`, unconditionally reset the pending command, and surface the
boolean as a status. -/
def RenderPass.Draw (rp : RenderPass) : Status × RenderPass :=
  let result := rp.AddCommand rp.pending
  let rp' := { result.2 with pending := {} }
  if result.1 then
    ({}, rp')
  else
    ({ code := StatusCode.kInvalidArgument, message := "Failed to encode command" }, rp')

/-! ### Sample values used by the closed witness theorems -/

/-- An 800 x 600 render pass in its initial recording state (the spec's
scenario target size). -/
def passSample : RenderPass :=
  { render_target_size := { width := 800, height := 600 } }

/-- A (non-null) pipeline handle. -/
def pipelineSample : Pipeline := {}

/-- A buffer view referencing a non-empty buffer region. -/
def viewValid : BufferView := { isValid := true, tag := 1 }

/-- A buffer view referencing an empty buffer region. -/
def viewInvalid : BufferView := {}

/-- A structurally valid command drawing three elements (one instance). -/
def cmdTriangle : Command :=
  { pipeline := some pipelineSample, element_count := 3 }

/-- A structurally valid command with a zero element count. -/
def cmdZero : Command := { pipeline := some pipelineSample }

/-- A structurally valid command with an in-bounds scissor and three
elements. -/
def cmdScissored : Command :=
  { pipeline := some pipelineSample, element_count := 3,
    scissor := some { x := 0, y := 0, w := 100, h := 100 } }

/-- A structurally valid command with zero element count and a scissor that
exceeds an 800 x 600 target on the right and bottom. -/
def cmdZeroBadScissor : Command :=
  { pipeline := some pipelineSample,
    scissor := some { x := 700, y := 500, w := 200, h := 200 } }

/-! ### Helper lemmas shared by several claims -/

/-- The vertex-buffer validation loop never touches the pending command. -/
theorem validateVertexBuffersLoop_pending (rp : RenderPass) (l : List BufferView) :
    (rp.validateVertexBuffersLoop l).2.pending = rp.pending := by
  induction l with
  | nil => rfl
  | cons b rest ih =>
    by_cases hb : b.isValid = true <;>
      simp [RenderPass.validateVertexBuffersLoop, hb, RenderPass.validationLog, ih]

/-- The vertex-buffer validation loop succeeds iff every view in the list is
valid. -/
theorem validateVertexBuffersLoop_fst (rp : RenderPass) (l : List BufferView) :
    (rp.validateVertexBuffersLoop l).1 = l.all (fun b => b.isValid) := by
  induction l with
  | nil => rfl
  | cons b rest ih =>
    by_cases hb : b.isValid = true <;>
      simp [RenderPass.validateVertexBuffersLoop, hb, ih]

/-- On failure the vertex-buffer validation loop logs exactly one
diagnostic. -/
theorem validateVertexBuffersLoop_log (rp : RenderPass) (l : List BufferView)
    (h : (rp.validateVertexBuffersLoop l).1 = false) :
    (rp.validateVertexBuffersLoop l).2.log =
      rp.log ++ ["Attempted to bind an invalid vertex buffer."] := by
  induction l with
  | nil => simp [RenderPass.validateVertexBuffersLoop] at h
  | cons b rest ih =>
    cases hb : b.isValid with
    | false => simp [RenderPass.validateVertexBuffersLoop, hb, RenderPass.validationLog]
    | true =>
      simp only [RenderPass.validateVertexBuffersLoop, hb, Bool.not_true,
        Bool.false_eq_true, if_false] at h ⊢
      exact ih h

/-- `ValidateVertexBuffers` never touches the pending command. -/
theorem ValidateVertexBuffers_pending (rp : RenderPass) (bufs : List BufferView)
    (count : Nat) :
    (rp.ValidateVertexBuffers bufs count).2.pending = rp.pending := by
  unfold RenderPass.ValidateVertexBuffers
  split
  · rfl
  · exact validateVertexBuffersLoop_pending rp (bufs.take count)

/-- `ValidateIndexBuffer` never touches the pending command. -/
theorem ValidateIndexBuffer_pending (rp : RenderPass) (b : BufferView)
    (t : IndexType) :
    (rp.ValidateIndexBuffer b t).2.pending = rp.pending := by
  unfold RenderPass.ValidateIndexBuffer
  split
  · rfl
  · split <;> rfl

/-- Containment of a rectangle in the render-target rectangle, spelled as the
four integer inequalities of the spec ("[0,0]..targetSize"). -/
theorem MakeSize_Contains_iff (s : ISize) (r : IRect) :
    (IRect.MakeSize s).Contains r = true ↔
      0 ≤ r.x ∧ 0 ≤ r.y ∧ r.x + r.w ≤ s.width ∧ r.y + r.h ≤ s.height := by
  simp only [IRect.Contains, IRect.MakeSize, decide_eq_true_eq]
  omega

/-! ### Claim theorems -/

/-- Claim C1: every command with a null pipeline is invalid, and `AddCommand`
on any command whose `IsValid` is false reports a validation failure via the
diagnostic channel, returns failure, and leaves the finalized command
sequence unmodified. -/
theorem AddCommand_rejects_invalid :
    (∀ c : Command, c.pipeline = none → c.IsValid = false) ∧
    ∀ (rp : RenderPass) (c : Command), c.IsValid = false →
      (rp.AddCommand c).1 = false ∧
      (rp.AddCommand c).2.commands = rp.commands ∧
      (rp.AddCommand c).2.log =
        rp.log ++ ["Attempted to add an invalid command to the render pass."] := by
  constructor
  · intro c hc
    simp [Command.IsValid, hc]
  · intro rp c hc
    simp [RenderPass.AddCommand, hc, RenderPass.validationLog]

/-- Claim C1 witness: the default command (null pipeline) is rejected by a
fresh 800 x 600 pass, which logs the failure and keeps its empty sequence. -/
theorem AddCommand_rejects_invalid_witness :
    (passSample.AddCommand {}).1 = false ∧
    (passSample.AddCommand {}).2.commands = passSample.commands ∧
    (passSample.AddCommand {}).2.log =
      passSample.log ++ ["Attempted to add an invalid command to the render pass."] :=
  AddCommand_rejects_invalid.2 passSample {} (by decide)

/-- Claim C3: a structurally valid command with an in-bounds (or absent)
scissor whose element count or instance count is zero is a successful
structural no-op: `AddCommand` returns success and the finalized sequence
length is unchanged (the command is not appended). -/
theorem AddCommand_zero_fanout_noop (rp : RenderPass) (c : Command)
    (h1 : c.IsValid = true) (h2 : rp.scissorViolation c = false)
    (h3 : c.element_count = 0 ∨ c.instance_count = 0) :
    (rp.AddCommand c).1 = true ∧
    (rp.AddCommand c).2.commands.length = rp.commands.length ∧
    (rp.AddCommand c).2.commands = rp.commands := by
  rcases h3 with h3 | h3 <;> simp [RenderPass.AddCommand, h1, h2, h3]

/-- Claim C3 witness: a valid zero-element command is accepted by the fresh
800 x 600 pass without being appended. -/
theorem AddCommand_zero_fanout_noop_witness :
    (passSample.AddCommand cmdZero).1 = true ∧
    (passSample.AddCommand cmdZero).2.commands.length = passSample.commands.length ∧
    (passSample.AddCommand cmdZero).2.commands = passSample.commands :=
  AddCommand_zero_fanout_noop passSample cmdZero (by decide) (by decide)
    (Or.inl (by decide))

/-- Claim C4: `Draw` always resets the pending command to a fresh default
command, whether `AddCommand` accepted or rejected the drawn command. -/
theorem Draw_resets_pending (rp : RenderPass) :
    (rp.Draw).2.pending = ({} : Command) := by
  cases hr : (rp.AddCommand rp.pending).1 <;> simp [RenderPass.Draw, hr]

/-- Claim C6: `ValidateIndexBuffer` fails for the `unknown` index type
regardless of the buffer, fails for the 16-bit and 32-bit index types when
the buffer is invalid/empty, and succeeds for the `none` index type
regardless of the buffer (the buffer is ignored). -/
theorem ValidateIndexBuffer_spec (rp : RenderPass) (b : BufferView) :
    (rp.ValidateIndexBuffer b IndexType.kUnknown).1 = false ∧
    (b.isValid = false →
      (rp.ValidateIndexBuffer b IndexType.k16bit).1 = false ∧
      (rp.ValidateIndexBuffer b IndexType.k32bit).1 = false) ∧
    (rp.ValidateIndexBuffer b IndexType.kNone).1 = true := by
  refine ⟨rfl, fun hb => ⟨?_, ?_⟩, rfl⟩ <;>
    simp [RenderPass.ValidateIndexBuffer, hb]

/-- Claim C6 witness: the empty view fails 16-bit and 32-bit validation,
while a non-empty view with index type `none` still succeeds. -/
theorem ValidateIndexBuffer_spec_witness :
    ((passSample.ValidateIndexBuffer viewInvalid IndexType.k16bit).1 = false ∧
     (passSample.ValidateIndexBuffer viewInvalid IndexType.k32bit).1 = false) ∧
    (passSample.ValidateIndexBuffer viewValid IndexType.kNone).1 = true :=
  ⟨(ValidateIndexBuffer_spec passSample viewInvalid).2.1 rfl,
   (ValidateIndexBuffer_spec passSample viewValid).2.2⟩

/-- Claim C10: in `AddCommand` the scissor-bounds check runs before the
zero-fanout check: a valid command with zero element or instance count but an
out-of-bounds scissor is rejected (not treated as the no-op success), with
the sequence unmodified. -/
theorem AddCommand_scissor_before_noop (rp : RenderPass) (c : Command)
    (h1 : c.IsValid = true)
    (_h2 : c.element_count = 0 ∨ c.instance_count = 0)
    (h3 : rp.scissorViolation c = true) :
    (rp.AddCommand c).1 = false ∧ (rp.AddCommand c).2.commands = rp.commands := by
  simp [RenderPass.AddCommand, h1, h3, RenderPass.validationLog]

/-- Claim C10 witness: a valid zero-element command whose scissor overruns
the 800 x 600 target is rejected, not no-op-accepted. -/
theorem AddCommand_scissor_before_noop_witness :
    (passSample.AddCommand cmdZeroBadScissor).1 = false ∧
    (passSample.AddCommand cmdZeroBadScissor).2.commands = passSample.commands :=
  AddCommand_scissor_before_noop passSample cmdZeroBadScissor (by decide)
    (Or.inl (by decide)) (by decide)

/-- Claim C2: for a valid command carrying a scissor rectangle, `AddCommand`
succeeds iff the rectangle is fully contained in `[0,0]..targetSize` (the
size frozen at construction); on a containment failure it returns failure and
the finalized sequence is unmodified. -/
theorem AddCommand_scissor_iff (rp : RenderPass) (c : Command) (r : IRect)
    (h1 : c.IsValid = true) (h2 : c.scissor = some r) :
    ((rp.AddCommand c).1 = true ↔
      0 ≤ r.x ∧ 0 ≤ r.y ∧ r.x + r.w ≤ rp.render_target_size.width ∧
        r.y + r.h ≤ rp.render_target_size.height) ∧
    ((rp.AddCommand c).1 = false → (rp.AddCommand c).2.commands = rp.commands) := by
  by_cases hC : (IRect.MakeSize rp.render_target_size).Contains r = true
  · have hv : rp.scissorViolation c = false := by
      simp [RenderPass.scissorViolation, h2, hC]
    have hres : (rp.AddCommand c).1 = true := by
      simp [RenderPass.AddCommand, h1, hv, apply_ite]
    refine ⟨?_, fun hfail => by simp [hres] at hfail⟩
    simp [hres, (MakeSize_Contains_iff rp.render_target_size r).mp hC]
  · have hv : rp.scissorViolation c = true := by
      simp only [RenderPass.scissorViolation, h2]
      simp [Bool.not_eq_true] at hC
      simp [hC]
    have hfail : rp.AddCommand c =
        (false, rp.validationLog
          "Cannot apply a scissor that lies outside the bounds of the render target.") := by
      simp [RenderPass.AddCommand, h1, hv]
    constructor
    · rw [hfail]
      simp only [Bool.false_eq_true, false_iff]
      exact fun hcont => hC ((MakeSize_Contains_iff rp.render_target_size r).mpr hcont)
    · intro _
      rw [hfail]
      rfl

/-- Claim C2 witness: on the 800 x 600 pass, a valid three-element command
with scissor (0,0)-(100,100) is accepted. -/
theorem AddCommand_scissor_iff_witness :
    (passSample.AddCommand cmdScissored).1 = true :=
  (AddCommand_scissor_iff passSample cmdScissored
    { x := 0, y := 0, w := 100, h := 100 } (by decide) rfl).1.mpr (by decide)

/-- Claim C5: `Draw` returns the ok status exactly when `AddCommand` on the
pending command returns true, otherwise it returns the invalid-argument
status with the fixed message "Failed to encode command"; and `AddCommand`
can only return false through structural invalidity or a scissor
violation. -/
theorem Draw_status_reflects_AddCommand (rp : RenderPass) :
    ((rp.Draw).1.code = StatusCode.kOk ↔ (rp.AddCommand rp.pending).1 = true) ∧
    ((rp.AddCommand rp.pending).1 = false →
      (rp.Draw).1 = { code := StatusCode.kInvalidArgument,
                      message := "Failed to encode command" }) ∧
    ((rp.AddCommand rp.pending).1 = false →
      rp.pending.IsValid = false ∨ rp.scissorViolation rp.pending = true) := by
  refine ⟨?_, ?_, ?_⟩
  · cases hr : (rp.AddCommand rp.pending).1 <;> simp [RenderPass.Draw, hr]
  · intro hr
    simp [RenderPass.Draw, hr]
  · intro hr
    cases h1 : rp.pending.IsValid with
    | false => exact Or.inl rfl
    | true =>
      cases h2 : rp.scissorViolation rp.pending with
      | true => exact Or.inr rfl
      | false =>
        have : (rp.AddCommand rp.pending).1 = true := by
          simp [RenderPass.AddCommand, h1, h2, apply_ite]
        simp [this] at hr

/-- Claim C5 witness: drawing with the default (null-pipeline) pending
command on the fresh 800 x 600 pass yields the invalid-argument status with
the fixed message. -/
theorem Draw_status_reflects_AddCommand_witness :
    (passSample.Draw).1 = { code := StatusCode.kInvalidArgument,
                            message := "Failed to encode command" } :=
  (Draw_status_reflects_AddCommand passSample).2.1 (by decide)

/-- On failure the array-based `SetVertexBuffer` core leaves the pending
command unchanged (the validation routine only logs). -/
theorem SetVertexBuffer_fail (rp : RenderPass) (bufs : List BufferView)
    (count : Nat) (h : (rp.SetVertexBuffer bufs count).1 = false) :
    (rp.SetVertexBuffer bufs count).2.pending = rp.pending := by
  cases hv : (rp.ValidateVertexBuffers bufs count).1 with
  | false =>
    simp only [RenderPass.SetVertexBuffer, hv, Bool.not_false, if_true]
    exact ValidateVertexBuffers_pending rp bufs count
  | true => simp [RenderPass.SetVertexBuffer, hv] at h

/-- On failure `SetIndexBuffer` leaves the pending command unchanged. -/
theorem SetIndexBuffer_fail (rp : RenderPass) (b : BufferView) (t : IndexType)
    (h : (rp.SetIndexBuffer b t).1 = false) :
    (rp.SetIndexBuffer b t).2.pending = rp.pending := by
  cases hv : (rp.ValidateIndexBuffer b t).1 with
  | false =>
    simp only [RenderPass.SetIndexBuffer, hv, Bool.not_false, if_true]
    exact ValidateIndexBuffer_pending rp b t
  | true => simp [RenderPass.SetIndexBuffer, hv] at h

/-- A packaged vertex-buffer description with a valid vertex-buffer view but
an `unknown` index type: its vertex step succeeds, its index step fails. -/
def vbBadIndex : VertexBuffer :=
  { vertex_buffer := viewValid, index_buffer := viewValid, vertex_count := 3,
    index_type := IndexType.kUnknown }

/-- Claim C7 counterexample: the combined vertex+index+count helper is not
all-or-nothing on every failure path.  With a valid vertex-buffer view but an
`unknown` index type it returns failure, yet the pending command has already
been mutated: its vertex-buffer count went from 0 to 1. -/
theorem SetVertexBufferFull_partial_mutation :
    (passSample.SetVertexBufferFull vbBadIndex).1 = false ∧
    passSample.pending.vertex_buffer_count = 0 ∧
    (passSample.SetVertexBufferFull vbBadIndex).2.pending.vertex_buffer_count = 1 := by
  decide

/-- Claim C7 amended: the single-view, list, and array `SetVertexBuffer`
overloads and `SetIndexBuffer` are each all-or-nothing (on failure the
pending command is unchanged and failure is returned), and the combined
helper performs no index-buffer or element-count assignment when its
vertex-buffer-set step fails (the pending command is then unchanged); but
when the vertex-buffer step succeeds and the index-buffer validation then
fails, the combined helper returns failure with the vertex-buffer assignment
already applied: its final pending state is exactly the vertex-buffer step's
pending state. -/
theorem setters_all_or_nothing (rp : RenderPass) (b : BufferView)
    (bufs : List BufferView) (count : Nat) (t : IndexType) (vb : VertexBuffer) :
    ((rp.SetVertexBuffer bufs count).1 = false →
      (rp.SetVertexBuffer bufs count).2.pending = rp.pending) ∧
    ((rp.SetVertexBufferView b).1 = false →
      (rp.SetVertexBufferView b).2.pending = rp.pending) ∧
    ((rp.SetVertexBufferVec bufs).1 = false →
      (rp.SetVertexBufferVec bufs).2.pending = rp.pending) ∧
    ((rp.SetIndexBuffer b t).1 = false →
      (rp.SetIndexBuffer b t).2.pending = rp.pending) ∧
    ((rp.SetVertexBuffer [vb.vertex_buffer] 1).1 = false →
      (rp.SetVertexBufferFull vb).1 = false ∧
      (rp.SetVertexBufferFull vb).2.pending = rp.pending) ∧
    ((rp.SetVertexBuffer [vb.vertex_buffer] 1).1 = true →
      ((rp.SetVertexBuffer [vb.vertex_buffer] 1).2.SetIndexBuffer
          vb.index_buffer vb.index_type).1 = false →
      (rp.SetVertexBufferFull vb).1 = false ∧
      (rp.SetVertexBufferFull vb).2.pending =
        (rp.SetVertexBuffer [vb.vertex_buffer] 1).2.pending) := by
  refine ⟨SetVertexBuffer_fail rp bufs count, ?_, ?_, SetIndexBuffer_fail rp b t, ?_, ?_⟩
  · intro h
    exact SetVertexBuffer_fail rp [b] 1 h
  · intro h
    exact SetVertexBuffer_fail rp bufs bufs.length h
  · intro h1
    constructor
    · simp [RenderPass.SetVertexBufferFull, h1]
    · simp only [RenderPass.SetVertexBufferFull, h1, Bool.not_false, if_true]
      exact SetVertexBuffer_fail rp [vb.vertex_buffer] 1 h1
  · intro h1 h2
    constructor
    · simp [RenderPass.SetVertexBufferFull, h1, h2]
    · simp only [RenderPass.SetVertexBufferFull, h1, h2, Bool.not_true,
        Bool.not_false, Bool.false_eq_true, if_false, if_true]
      exact SetIndexBuffer_fail (rp.SetVertexBuffer [vb.vertex_buffer] 1).2
        vb.index_buffer vb.index_type h2

/-- Claim C7 amended witness: an index-buffer set with an empty view and the
16-bit index type fails and leaves the fresh pass's pending command
unchanged. -/
theorem setters_all_or_nothing_witness :
    (passSample.SetIndexBuffer viewInvalid IndexType.k16bit).2.pending =
      passSample.pending :=
  (setters_all_or_nothing passSample viewInvalid [] 0 IndexType.k16bit
    {}).2.2.2.1 (by decide)

/-- Claim C8: `ValidateVertexBuffers` succeeds iff the count is within the
fixed maximum and every buffer among the first `count` entries is valid; when
the count is over the limit the logged diagnostic carries the attempted count
and the maximum; every failure is reported by exactly one appended diagnostic
message (a returned failure, not a throw or abort). -/
theorem ValidateVertexBuffers_spec (rp : RenderPass) (bufs : List BufferView)
    (count : Nat) (_h : count ≤ bufs.length) :
    ((rp.ValidateVertexBuffers bufs count).1 = true ↔
      count ≤ kMaxVertexBuffers ∧ ∀ b ∈ bufs.take count, b.isValid = true) ∧
    (kMaxVertexBuffers < count →
      (rp.ValidateVertexBuffers bufs count).2.log = rp.log ++
        ["Attempted to bind " ++ toString count ++
         " vertex buffers, but the maximum is " ++ toString kMaxVertexBuffers ++ "."]) ∧
    ((rp.ValidateVertexBuffers bufs count).1 = false →
      (rp.ValidateVertexBuffers bufs count).2.log.length = rp.log.length + 1) := by
  by_cases hmax : kMaxVertexBuffers < count
  · have hres : rp.ValidateVertexBuffers bufs count =
        (false, rp.validationLog ("Attempted to bind " ++ toString count ++
          " vertex buffers, but the maximum is " ++ toString kMaxVertexBuffers ++ ".")) := by
      simp [RenderPass.ValidateVertexBuffers, hmax]
    refine ⟨?_, fun _ => ?_, fun _ => ?_⟩
    · rw [hres]
      simp only [Bool.false_eq_true, false_iff]
      intro hc
      omega
    · rw [hres]
      rfl
    · rw [hres]
      simp [RenderPass.validationLog]
  · have hres : rp.ValidateVertexBuffers bufs count =
        rp.validateVertexBuffersLoop (bufs.take count) := by
      simp [RenderPass.ValidateVertexBuffers, hmax]
    refine ⟨?_, fun hc => absurd hc hmax, fun hf => ?_⟩
    · rw [hres, validateVertexBuffersLoop_fst, List.all_eq_true]
      exact ⟨fun hall => ⟨Nat.le_of_not_lt hmax, hall⟩, fun hall => hall.2⟩
    · rw [hres] at hf ⊢
      rw [validateVertexBuffersLoop_log rp (bufs.take count) hf]
      simp

/-- Claim C8 witness: attempting to bind 17 valid vertex buffers on the
fresh pass fails and the logged diagnostic carries 17 and the maximum 16. -/
theorem ValidateVertexBuffers_spec_witness :
    (passSample.ValidateVertexBuffers (List.replicate 17 viewValid) 17).2.log =
      passSample.log ++
        ["Attempted to bind " ++ toString 17 ++
         " vertex buffers, but the maximum is " ++ toString kMaxVertexBuffers ++ "."] :=
  (ValidateVertexBuffers_spec passSample (List.replicate 17 viewValid) 17
    (by decide)).2.1 (by decide)

/-- Claim C9: each builder mutator (`SetPipeline`, `SetCommandLabel`,
`SetStencilReference`, `SetBaseVertex`, `SetViewport`, `SetScissor`,
`SetElementCount`, `SetInstanceCount`) replaces exactly its one field of the
pending command — the result state is literally the old state with that
single pending field updated — so the finalized sequence, the diagnostic
log, and every other pending field are unchanged and no validation runs. -/
theorem mutators_single_field (rp : RenderPass) (p : Option Pipeline)
    (label : String) (sref bv : Nat) (vp : Viewport) (sc : IRect) (ec ic : Nat) :
    (rp.SetPipeline p = { rp with pending := { rp.pending with pipeline := p } } ∧
      (rp.SetPipeline p).commands = rp.commands ∧ (rp.SetPipeline p).log = rp.log) ∧
    (rp.SetCommandLabel label =
        { rp with pending := { rp.pending with label := label } } ∧
      (rp.SetCommandLabel label).commands = rp.commands ∧
      (rp.SetCommandLabel label).log = rp.log) ∧
    (rp.SetStencilReference sref =
        { rp with pending := { rp.pending with stencil_reference := sref } } ∧
      (rp.SetStencilReference sref).commands = rp.commands ∧
      (rp.SetStencilReference sref).log = rp.log) ∧
    (rp.SetBaseVertex bv =
        { rp with pending := { rp.pending with base_vertex := bv } } ∧
      (rp.SetBaseVertex bv).commands = rp.commands ∧
      (rp.SetBaseVertex bv).log = rp.log) ∧
    (rp.SetViewport vp =
        { rp with pending := { rp.pending with viewport := vp } } ∧
      (rp.SetViewport vp).commands = rp.commands ∧
      (rp.SetViewport vp).log = rp.log) ∧
    (rp.SetScissor sc =
        { rp with pending := { rp.pending with scissor := some sc } } ∧
      (rp.SetScissor sc).commands = rp.commands ∧
      (rp.SetScissor sc).log = rp.log) ∧
    (rp.SetElementCount ec =
        { rp with pending := { rp.pending with element_count := ec } } ∧
      (rp.SetElementCount ec).commands = rp.commands ∧
      (rp.SetElementCount ec).log = rp.log) ∧
    (rp.SetInstanceCount ic =
        { rp with pending := { rp.pending with instance_count := ic } } ∧
      (rp.SetInstanceCount ic).commands = rp.commands ∧
      (rp.SetInstanceCount ic).log = rp.log) :=
  ⟨⟨rfl, rfl, rfl⟩, ⟨rfl, rfl, rfl⟩, ⟨rfl, rfl, rfl⟩, ⟨rfl, rfl, rfl⟩,
   ⟨rfl, rfl, rfl⟩, ⟨rfl, rfl, rfl⟩, ⟨rfl, rfl, rfl⟩, ⟨rfl, rfl, rfl⟩⟩
